import Mathlib

/-!
# Verification of the networkdb health-check scripts

Shallow embedding of the two probe scripts
`src/scripts/templates/network_ping_check.py` and
`src/scripts/templates/database_health_check.py`, together with proofs of
the specified properties of parameter resolution, probe execution, result
aggregation and exit codes.

External collaborators (the environment, the `ping` subprocess, the
database drivers) are modelled as explicit function parameters; every
Python function of the scripts is translated into an executable Lean
definition.  Machine floats are modelled by `ℚ`; Python exceptions by
`Except String` / explicit error fields.  Python string primitives
(`split`, `strip`, `in`, `int()`, `float()`, ...) are modelled by
structural functions over `List Char` so that all definitions evaluate
inside the kernel.
-/

/-! ## Python string primitives -/

/-- Accumulator form of `str.split(sep)` for a one-character separator. -/
def charsSplitOnAux (sep : Char) : List Char → List Char → List (List Char)
  | acc, [] => [acc.reverse]
  | acc, c :: cs =>
      if c = sep then acc.reverse :: charsSplitOnAux sep [] cs
      else charsSplitOnAux sep (c :: acc) cs

/-- Python `s.split(sep)` for a one-character separator (every separator
the scripts pass is one character). -/
def charsSplitOn (sep : Char) (s : List Char) : List (List Char) :=
  charsSplitOnAux sep [] s

/-- Is the first list a prefix of the second? -/
def charsIsPrefix : List Char → List Char → Bool
  | [], _ => true
  | _ :: _, [] => false
  | a :: as, b :: bs => a = b && charsIsPrefix as bs

/-- Python `needle in hay` (substring containment). -/
def charsContains (needle : List Char) : List Char → Bool
  | [] => charsIsPrefix needle []
  | c :: rest => charsIsPrefix needle (c :: rest) || charsContains needle rest

/-- Whitespace-run split dropping empties: Python `s.split()`. -/
def charsWsTokensAux (acc : List Char) : List Char → List (List Char)
  | [] => if acc.isEmpty then [] else [acc.reverse]
  | c :: cs =>
      if c.isWhitespace then
        if acc.isEmpty then charsWsTokensAux [] cs
        else acc.reverse :: charsWsTokensAux [] cs
      else charsWsTokensAux (c :: acc) cs

/-- Drop leading whitespace. -/
def charsDropWs : List Char → List Char
  | [] => []
  | c :: cs => if c.isWhitespace then charsDropWs cs else c :: cs

/-- Python `s.strip()`. -/
def charsTrim (s : List Char) : List Char :=
  (charsDropWs ((charsDropWs s).reverse)).reverse

/-- Digit-string accumulator for `int()`/`float()`. -/
def charsToNatAux (acc : Nat) : List Char → Option Nat
  | [] => some acc
  | c :: cs =>
      if c.isDigit then charsToNatAux (acc * 10 + (c.toNat - 48)) cs
      else Option.none

/-- Parse a non-empty all-digit string. -/
def charsToNat? : List Char → Option Nat
  | [] => Option.none
  | c :: cs => charsToNatAux 0 (c :: cs)

/-- Python `s.replace('ms', '')`, the one `replace` the scripts perform
(left-to-right, non-overlapping). -/
def charsRemoveMs : List Char → List Char
  | 'm' :: 's' :: rest => charsRemoveMs rest
  | c :: rest => c :: charsRemoveMs rest
  | [] => []

/-- Python `s.split(sep)` on `String`. -/
def pySplitOn (sep : Char) (s : String) : List String :=
  (charsSplitOn sep s.data).map (fun l => ⟨l⟩)

/-- Python `needle in hay` on `String`. -/
def pyContains (needle hay : String) : Bool :=
  charsContains needle.data hay.data

/-- Python `s.strip()` on `String`. -/
def pyTrim (s : String) : String := ⟨charsTrim s.data⟩

/-- Python `s.split()` on `String`. -/
def pyWsTokens (s : String) : List String :=
  (charsWsTokensAux [] s.data).map (fun l => ⟨l⟩)

/-- Python `s.replace('ms', '')` on `String`. -/
def pyRemoveMs (s : String) : String := ⟨charsRemoveMs s.data⟩

/-- Python `s.upper()`. -/
def pyUpper (s : String) : String := ⟨s.data.map Char.toUpper⟩

/-- Python `s.lower()`. -/
def pyLower (s : String) : String := ⟨s.data.map Char.toLower⟩

/-- Python `int(s)` on a string: strip whitespace, optional sign, digits;
`Option.none` models the `ValueError` raise.  (Underscore separators and
non-ASCII digits are not modelled; the scripts never produce them.) -/
def pyIntStr (s : String) : Option Int :=
  match charsTrim s.data with
  | '+' :: rest => (charsToNat? rest).map Int.ofNat
  | '-' :: rest => (charsToNat? rest).map (fun n => -(n : Int))
  | t => (charsToNat? t).map Int.ofNat

/-- Python `float(s)`: strip, optional sign, decimal digits with an
optional fractional part; `Option.none` models the `ValueError` raise.
(Exponent and special forms never occur in `ping` statistics.) -/
def pyFloatStr (s : String) : Option ℚ :=
  let signed : Bool × List Char :=
    match charsTrim s.data with
    | '-' :: rest => (true, rest)
    | '+' :: rest => (false, rest)
    | t => (false, t)
  let mag : Option ℚ :=
    match charsSplitOn '.' signed.2 with
    | [a] => (charsToNat? a).map (fun n => (n : ℚ))
    | [a, b] =>
        if a.isEmpty && b.isEmpty then Option.none
        else if (a.isEmpty || a.all Char.isDigit) && (b.isEmpty || b.all Char.isDigit) then
          some (((charsToNat? a).getD 0 : ℚ) + ((charsToNat? b).getD 0 : ℚ) / (10 ^ b.length))
        else Option.none
    | _ => Option.none
  mag.map (fun q => if signed.1 then -q else q)

/-- `[item.strip() for item in value.split(',') if item.strip()]` —
comma split, trim, drop empties (both the `list` coercion of
`get_parameter` and the `hosts` parsing in `main`). -/
def pySplitCommaClean (s : String) : List String :=
  ((pySplitOn ',' s).map pyTrim).filter (fun x => x ≠ "")

example : pySplitCommaClean " a , ,b," = ["a", "b"] := by decide
example : pySplitCommaClean "" = [] := by decide
example : pyFloatStr "abc" = Option.none := by decide
example : pyIntStr " -42 " = some (-42) := by decide
example : pyIntStr "4x" = Option.none := by decide
example : pyUpper "hosts" = "HOSTS" := by decide
example : pyContains "min/avg/max" "rtt min/avg/max/mdev = 1/2/3 ms" = true := by decide
example : pyRemoveMs "12ms" = "12" := by decide
example : toString (25 : Int) = "25" := by decide

/-! ## Parameter resolution -/

/-- A Python runtime value, restricted to the shapes the scripts produce:
`None`, `str`, `int`, `bool` and list-of-str (the value of the `list`
parameter coercion). -/
inductive PyVal where
  | none
  | str (s : String)
  | int (n : Int)
  | bool (b : Bool)
  | list (xs : List String)
deriving DecidableEq, Repr

/-- The `param_type` argument of `get_parameter` (`str`, `int`, `bool`,
`list`). -/
inductive PyType where
  | str
  | int
  | bool
  | list
deriving DecidableEq, Repr

/-- Python `str(value)` on the values of `PyVal`. -/
def pyStr : PyVal → String
  | PyVal.none => "None"
  | PyVal.str s => s
  | PyVal.int n => toString n
  | PyVal.bool b => if b then "True" else "False"
  | PyVal.list xs =>
      "[" ++ String.intercalate ", " (xs.map (fun x => "'" ++ x ++ "'")) ++ "]"

/-- Python truthiness (`bool(value)`) on the values of `PyVal`:
used for `if not hosts_param` and `if not database`. -/
def pyFalsy : PyVal → Bool
  | PyVal.none => true
  | PyVal.str s => s == ""
  | PyVal.int n => n == 0
  | PyVal.bool b => !b
  | PyVal.list xs => xs.isEmpty

/-- `get_parameter` of `network_ping_check.py` (lines 23-42).  The
environment `os.environ` is the function `env`; a present value is always
a string.  `Except.error` models an uncaught Python exception (only the
`TypeError` of `int()` on a non-string, non-numeric default can occur;
the `ValueError` of a failed string parse is caught and falls back to the
default). -/
def get_parameter_net (env : String → Option String) (name : String)
    (default : PyVal) (ty : PyType) : Except String PyVal :=
  let envName := "PARAM_" ++ pyUpper name
  let value : PyVal :=
    match env envName with
    | some s => PyVal.str s
    | Option.none => default
  if value = PyVal.none then Except.ok PyVal.none
  else if ty = PyType.int then
    match value with
    | PyVal.str s =>
        match pyIntStr s with
        | some n => Except.ok (PyVal.int n)
        | Option.none => Except.ok default
    | PyVal.int n => Except.ok (PyVal.int n)
    | PyVal.bool b => Except.ok (PyVal.int (if b then 1 else 0))
    | _ => Except.error "TypeError: int() argument must be a string or a number"
  else if ty = PyType.bool then
    Except.ok (PyVal.bool ((["true", "1", "yes", "on"] : List String).contains
      (pyLower (pyStr value))))
  else if ty = PyType.list then
    match value with
    | PyVal.str s => Except.ok (PyVal.list (pySplitCommaClean s))
    | _ => Except.ok value
  else Except.ok value

/-- `get_parameter` of `database_health_check.py` (lines 27-43): identical
to the network variant except that it has no `list` coercion branch. -/
def get_parameter_db (env : String → Option String) (name : String)
    (default : PyVal) (ty : PyType) : Except String PyVal :=
  let envName := "PARAM_" ++ pyUpper name
  let value : PyVal :=
    match env envName with
    | some s => PyVal.str s
    | Option.none => default
  if value = PyVal.none then Except.ok PyVal.none
  else if ty = PyType.int then
    match value with
    | PyVal.str s =>
        match pyIntStr s with
        | some n => Except.ok (PyVal.int n)
        | Option.none => Except.ok default
    | PyVal.int n => Except.ok (PyVal.int n)
    | PyVal.bool b => Except.ok (PyVal.int (if b then 1 else 0))
    | _ => Except.error "TypeError: int() argument must be a string or a number"
  else if ty = PyType.bool then
    Except.ok (PyVal.bool ((["true", "1", "yes", "on"] : List String).contains
      (pyLower (pyStr value))))
  else Except.ok value

example : get_parameter_net (fun _ => Option.none) "count" (PyVal.int 4) PyType.int
    = Except.ok (PyVal.int 4) := rfl
example : get_parameter_net (fun k => if k = "PARAM_COUNT" then some "7" else Option.none)
    "count" (PyVal.int 4) PyType.int = Except.ok (PyVal.int 7) := rfl
example : get_parameter_db (fun k => if k = "PARAM_COUNT" then some "oops" else Option.none)
    "count" (PyVal.int 4) PyType.int = Except.ok (PyVal.int 4) := rfl
example : get_parameter_net (fun _ => Option.none) "hosts" (PyVal.str "") PyType.str
    = Except.ok (PyVal.str "") := rfl
example : get_parameter_db (fun _ => Option.none) "database" PyVal.none PyType.str
    = Except.ok PyVal.none := rfl
example : get_parameter_net (fun k => if k = "PARAM_DEBUG" then some "Yes" else Option.none)
    "debug" (PyVal.bool false) PyType.bool = Except.ok (PyVal.bool true) := rfl

/-! ## Network probe executor (`ping_host`, lines 44-147) -/

/-- The result dictionary built by `ping_host` (lines 56-66). -/
structure PingResult where
  host : String
  success : Bool
  packets_sent : Int
  packets_received : Int
  packet_loss_percent : ℚ
  min_time : Option ℚ
  avg_time : Option ℚ
  max_time : Option ℚ
  error : Option String
deriving Repr, DecidableEq

/-- The initial result dictionary of `ping_host`. -/
def initPingResult (host : String) : PingResult :=
  { host := host, success := false, packets_sent := 0, packets_received := 0,
    packet_loss_percent := 100, min_time := Option.none, avg_time := Option.none,
    max_time := Option.none, error := Option.none }

/-- Outcome of one `subprocess.run` invocation of the external `ping`
tool: normal completion (return code, stdout, stderr), expiry of the
passed `timeout` bound (`subprocess.TimeoutExpired`), or any other raised
exception. -/
inductive PingOutcome where
  | completed (returncode : Int) (stdout : String) (stderr : String)
  | timedOut
  | raised (msg : String)
deriving Repr, DecidableEq

/-- Unix-format packet-statistics line parse (lines 108-115).  Each field
assignment is committed before the next parse step so that a raised
`ValueError`/`IndexError` (second component `some msg`) keeps the writes
made so far, exactly as the Python dict mutation does. -/
def unixPacketLine (st : PingResult) (line : String) : PingResult × Option String :=
  let parts := pySplitOn ',' line
  if parts.length ≥ 3 then
    match (pyWsTokens (parts.getD 0 "")).head? with
    | Option.none => (st, some "IndexError: list index out of range")
    | some w =>
      match pyIntStr w with
      | Option.none => (st, some ("ValueError: invalid literal for int(): " ++ w))
      | some sent =>
        let st := { st with packets_sent := sent }
        match (pyWsTokens (parts.getD 1 "")).head? with
        | Option.none => (st, some "IndexError: list index out of range")
        | some w2 =>
          match pyIntStr w2 with
          | Option.none => (st, some ("ValueError: invalid literal for int(): " ++ w2))
          | some recv =>
            let st := { st with packets_received := recv }
            let loss_part := pyTrim (parts.getD 2 "")
            match pyFloatStr ((pySplitOn '%' loss_part).headD "") with
            | Option.none => (st, some "ValueError: could not convert string to float")
            | some q => ({ st with packet_loss_percent := q }, Option.none)
  else (st, Option.none)

/-- One comma-separated part of a Windows packet-statistics line
(lines 98-107): `Sent = n` / `Received = n` / `... (p% loss)`. -/
def winPacketPart (st : PingResult) (part : String) : PingResult × Option String :=
  let p := pyTrim part
  if pyContains "Sent" p then
    match (pySplitOn '=' p).get? 1 with
    | Option.none => (st, some "IndexError: list index out of range")
    | some rhs =>
      match pyIntStr (pyTrim rhs) with
      | Option.none => (st, some ("ValueError: invalid literal for int(): " ++ pyTrim rhs))
      | some n => ({ st with packets_sent := n }, Option.none)
  else if pyContains "Received" p then
    match (pySplitOn '=' p).get? 1 with
    | Option.none => (st, some "IndexError: list index out of range")
    | some rhs =>
      match pyIntStr (pyTrim rhs) with
      | Option.none => (st, some ("ValueError: invalid literal for int(): " ++ pyTrim rhs))
      | some n => ({ st with packets_received := n }, Option.none)
  else if pyContains "loss" p && pyContains "(" p then
    match (pySplitOn '(' p).get? 1 with
    | Option.none => (st, some "IndexError: list index out of range")
    | some after =>
      match pyFloatStr ((pySplitOn '%' after).headD "") with
      | Option.none => (st, some "ValueError: could not convert string to float")
      | some q => ({ st with packet_loss_percent := q }, Option.none)
  else (st, Option.none)

/-- Left-to-right iteration over the parts of a line, stopping at the
first raised exception (a raise aborts the whole parsing loop). -/
def foldParts (f : PingResult → String → PingResult × Option String) :
    PingResult → List String → PingResult × Option String
  | st, [] => (st, Option.none)
  | st, p :: ps =>
    match f st p with
    | (st', some e) => (st', some e)
    | (st', Option.none) => foldParts f st' ps

/-- Windows packet-statistics line (lines 95-107). -/
def winPacketLine (st : PingResult) (line : String) : PingResult × Option String :=
  if pyContains "Sent" line && pyContains "Received" line then
    foldParts winPacketPart st (pySplitOn ',' line)
  else (st, Option.none)

/-- Unix timing line `rtt min/avg/max/mdev = a/b/c/d ms`
(lines 130-138). -/
def unixTimeLine (st : PingResult) (line : String) : PingResult × Option String :=
  if pyContains "=" line then
    let times_part := pyTrim ((pySplitOn '=' line).getD 1 "")
    let times := (pySplitOn '/' times_part).take 3
    if times.length ≥ 3 then
      match pyFloatStr (times.getD 0 "") with
      | Option.none => (st, some "ValueError: could not convert string to float")
      | some a =>
        let st := { st with min_time := some a }
        match pyFloatStr (times.getD 1 "") with
        | Option.none => (st, some "ValueError: could not convert string to float")
        | some b =>
          let st := { st with avg_time := some b }
          match pyFloatStr (times.getD 2 "") with
          | Option.none => (st, some "ValueError: could not convert string to float")
          | some c => ({ st with max_time := some c }, Option.none)
    else (st, Option.none)
  else (st, Option.none)

/-- One comma-separated part of a Windows timing line (lines 120-129):
`Minimum = 1ms` / `Maximum = 2ms` / `Average = 1ms`. -/
def winTimePart (st : PingResult) (part : String) : PingResult × Option String :=
  let p := pyTrim part
  if pyContains "Minimum" p then
    match (pySplitOn '=' p).get? 1 with
    | Option.none => (st, some "IndexError: list index out of range")
    | some rhs =>
      match pyFloatStr (pyTrim (pyRemoveMs rhs)) with
      | Option.none => (st, some "ValueError: could not convert string to float")
      | some q => ({ st with min_time := some q }, Option.none)
  else if pyContains "Maximum" p then
    match (pySplitOn '=' p).get? 1 with
    | Option.none => (st, some "IndexError: list index out of range")
    | some rhs =>
      match pyFloatStr (pyTrim (pyRemoveMs rhs)) with
      | Option.none => (st, some "ValueError: could not convert string to float")
      | some q => ({ st with max_time := some q }, Option.none)
  else if pyContains "Average" p then
    match (pySplitOn '=' p).get? 1 with
    | Option.none => (st, some "IndexError: list index out of range")
    | some rhs =>
      match pyFloatStr (pyTrim (pyRemoveMs rhs)) with
      | Option.none => (st, some "ValueError: could not convert string to float")
      | some q => ({ st with avg_time := some q }, Option.none)
  else (st, Option.none)

/-- Windows timing line (lines 119-129). -/
def winTimeLine (st : PingResult) (line : String) : PingResult × Option String :=
  foldParts winTimePart st (pySplitOn ',' line)

/-- One iteration of the output-parsing loop of `ping_host`
(lines 90-138): strip the line, dispatch on the packet-statistics or
timing markers and the platform. -/
def parseLine (windows : Bool) (st : PingResult) (line : String) :
    PingResult × Option String :=
  let l := pyTrim line
  if pyContains "packets transmitted" l || pyContains "Packets: Sent" l then
    if windows then winPacketLine st l else unixPacketLine st l
  else if pyContains "min/avg/max" l || pyContains "Minimum/Maximum/Average" l then
    if windows then winTimeLine st l else unixTimeLine st l
  else (st, Option.none)

/-- The output-parsing loop over `output.split('\n')`, stopping at the
first raised exception. -/
def parseLines (windows : Bool) : PingResult → List String → PingResult × Option String
  | st, [] => (st, Option.none)
  | st, l :: ls =>
    match parseLine windows st l with
    | (st', some e) => (st', some e)
    | (st', Option.none) => parseLines windows st' ls

/-- The `ping` command line built in lines 70-73 (`-n` `-w` on Windows,
`-c` `-W` on Unix). -/
def buildPingCmd (windows : Bool) (host : String) (count timeout : Int) : List String :=
  if windows then ["ping", "-n", toString count, "-w", toString (timeout * 1000), host]
  else ["ping", "-c", toString count, "-W", toString timeout, host]

/-- `ping_host` (lines 44-147).  The external transport is the function
`run`, invoked with the built command line and the wall-clock bound
`timeout * count + 10` passed to `subprocess.run` (line 80).  On a zero
return status the probe is marked successful and stdout is parsed; a
parse exception is caught by the outer handler, which records it in
`error` (line 145) while keeping all fields written so far.  On a
non-zero status, `error` is stderr or a fallback message (line 140).  On
`TimeoutExpired`, the timeout message of line 143; on any other
exception, its stringification. -/
def ping_host (windows : Bool) (host : String) (count timeout : Int)
    (run : List String → Int → PingOutcome) : PingResult :=
  let st := initPingResult host
  match run (buildPingCmd windows host count timeout) (timeout * count + 10) with
  | PingOutcome.completed rc out err =>
    if rc == 0 then
      let st := { st with success := true }
      match parseLines windows st (pySplitOn '\n' out) with
      | (st', some e) => { st' with error := some e }
      | (st', Option.none) => st'
    else
      { st with error := some (if err ≠ "" then err
          else "Ping failed with return code " ++ toString rc) }
  | PingOutcome.timedOut =>
    { st with error := some ("Ping timeout after " ++ toString (timeout * count + 10)
        ++ " seconds") }
  | PingOutcome.raised m => { st with error := some m }

example :
    (ping_host false "h" 4 5 (fun _ _ => PingOutcome.timedOut)).error
      = some "Ping timeout after 30 seconds" := by decide
example :
    (ping_host false "h" 4 5 (fun _ _ => PingOutcome.completed 0 "" "")).success
      = true := by decide
example :
    (ping_host false "h" 4 5 (fun _ _ => PingOutcome.completed 2 "" "boom")).error
      = some "boom" := by decide
example :
    (ping_host false "h" 4 5 (fun _ _ => PingOutcome.completed 2 "" "")).error
      = some "Ping failed with return code 2" := by decide

/-! ## Run summaries and the network `main` -/

/-- Python float division `a / b`: `Option.none` models the
`ZeroDivisionError` raise. -/
def pyDivQ (a b : ℚ) : Option ℚ :=
  if b = 0 then Option.none else some (a / b)

/-- The summary block both scripts compute (counts and success-rate
percentage). -/
structure RunSummary where
  total : Nat
  successful : Nat
  failed : Nat
  success_rate : ℚ
deriving Repr, DecidableEq

/-- The network summary (lines 204-207 and 233-238 of
`network_ping_check.py`): `success_rate = successful_hosts / total_hosts
* 100`, with **no** `max(total, 1)` guard — on an empty result sequence
the division raises `ZeroDivisionError` (modelled by `Option.none`). -/
def networkRunSummary (rs : List PingResult) : Option RunSummary :=
  let total := rs.length
  let succ := rs.countP (fun p => p.success)
  (pyDivQ (succ : ℚ) (total : ℚ)).map (fun q =>
    { total := total, successful := succ, failed := total - succ,
      success_rate := q * 100 })

/-- What the network `main` (lines 149-259) produces: a process exit
code, the ordered probe-result list (absent when validation exits before
any probe runs) and the summary. -/
structure NetworkRun where
  exitCode : Nat
  results : Option (List PingResult)
  summary : Option RunSummary
deriving Repr

/-- `main` of `network_ping_check.py` (lines 149-259).  Parameters come
from `env`; the `ping` transport is `run`.  Progress printing and the
report-file write are outside the model (a write failure does not change
the exit code, line 247-248).  `Except.error` models an uncaught Python
exception terminating the process (none is reachable: the parameter
defaults are well-typed and the summary is only computed over a
validated non-empty host list). -/
def networkMain (windows : Bool) (env : String → Option String)
    (run : List String → Int → PingOutcome) : Except String NetworkRun :=
  match get_parameter_net env "hosts" (PyVal.str "") PyType.str with
  | Except.error e => Except.error e
  | Except.ok hostsParam =>
  match get_parameter_net env "count" (PyVal.int 4) PyType.int with
  | Except.error e => Except.error e
  | Except.ok countV =>
  match get_parameter_net env "timeout" (PyVal.int 5) PyType.int with
  | Except.error e => Except.error e
  | Except.ok timeoutV =>
  if pyFalsy hostsParam then
    Except.ok { exitCode := 1, results := Option.none, summary := Option.none }
  else
    match hostsParam with
    | PyVal.str hp =>
      let hosts := pySplitCommaClean hp
      if hosts.isEmpty then
        Except.ok { exitCode := 1, results := Option.none, summary := Option.none }
      else
        match countV, timeoutV with
        | PyVal.int count, PyVal.int timeout =>
          let results := hosts.map (fun h => ping_host windows h count timeout run)
          let successful := results.countP (fun p => p.success)
          match networkRunSummary results with
          | some summ =>
            let exit : Nat :=
              if successful = hosts.length then 0
              else if 0 < successful then 1 else 2
            Except.ok { exitCode := exit, results := some results, summary := some summ }
          | Option.none => Except.error "ZeroDivisionError: division by zero"
        | _, _ => Except.error "TypeError: unsupported operand type(s)"
    | _ => Except.error "AttributeError: object has no attribute split"

example :
    networkMain false (fun _ => Option.none) (fun _ _ => PingOutcome.completed 0 "" "")
      = Except.ok { exitCode := 1, results := Option.none, summary := Option.none } := rfl

/-! ## Database health checks (`database_health_check.py`) -/

/-- A Python value as stored in a test-result `details` dict or returned
in a database row: scalars, lists and dicts.  Floats are `ℚ` (`rat`). -/
inductive PyObj where
  | none
  | int (n : Int)
  | rat (q : ℚ)
  | str (s : String)
  | bool (b : Bool)
  | list (xs : List PyObj)
  | dict (kvs : List (String × PyObj))
deriving BEq, Repr

/-- Python `==` on the scalar shapes the checks compare (numeric values
compare across `int`/`float`/`bool`; everything else structurally). -/
def pyEqObj (a b : PyObj) : Bool :=
  match a, b with
  | PyObj.int x, PyObj.rat q => (x : ℚ) == q
  | PyObj.rat q, PyObj.int x => q == (x : ℚ)
  | PyObj.bool x, PyObj.int y => (if x then (1 : Int) else 0) == y
  | PyObj.int x, PyObj.bool y => x == (if y then (1 : Int) else 0)
  | PyObj.bool x, PyObj.rat q => (if x then (1 : ℚ) else 0) == q
  | PyObj.rat q, PyObj.bool y => q == (if y then (1 : ℚ) else 0)
  | _, _ => a == b

/-- Python `str(obj)` for the scalar shapes interpolated into messages
(only the version string of the sqlite connectivity check needs it). -/
def pyObjStr : PyObj → String
  | PyObj.none => "None"
  | PyObj.int n => toString n
  | PyObj.rat _ => "<float>"
  | PyObj.str s => s
  | PyObj.bool b => if b then "True" else "False"
  | PyObj.list _ => "<list>"
  | PyObj.dict _ => "<dict>"

/-- The result dictionary each database check builds (e.g. lines 91-97):
`test` name, `success`, nullable response time, nullable error message
and a details dict.  The exception entries appended in `main`
(lines 441-445) lack the time/details keys; they are modelled by
`Option.none` / `[]`. -/
structure TestResult where
  test : String
  success : Bool
  response_time_ms : Option ℚ
  error : Option String
  details : List (String × PyObj)
deriving Repr

/-- The common two-query body of `test_basic_connectivity`
(lines 99-125), shared by the three dialect branches which differ only in
the query texts and the formatting of the version value.  `exec` models
`cursor.execute` (`Except.error` = raised database error, `Except.ok` =
the full result set of that query; executing a new query discards the
previous result set, so the later `fetchone` calls both read from the
result set of the *second* query).  `elapsedMs` is the measured
`(end_time - start_time) * 1000`. -/
def connectivityRun (exec : String → Except String (List (List PyObj)))
    (q1 q2 : String) (fmt : PyObj → PyObj) (r0 : TestResult) (elapsedMs : ℚ) :
    TestResult :=
  match exec q1 with
  | Except.error e => { r0 with error := some e }
  | Except.ok _ =>
    match exec q2 with
    | Except.error e => { r0 with error := some e }
    | Except.ok rows =>
      -- version_result = cursor.fetchone()  (first row of the q2 result set)
      let verObj : PyObj :=
        match rows.head? with
        | some (v :: _) => fmt v
        | _ => PyObj.str "Unknown"
      let r1 := { r0 with details := [("version", verObj)] }
      -- test_result = cursor.fetchone()  (NEXT row of the same q2 result set;
      -- the rows of q1 were discarded when q2 was executed)
      let test_result := rows.tail.head?
      -- cursor.close(); response time is recorded before test_result[0] is read
      let r2 := { r1 with response_time_ms := some elapsedMs }
      match test_result with
      | Option.none =>
          { r2 with error := some "TypeError: 'NoneType' object is not subscriptable" }
      | some [] =>
          { r2 with error := some "IndexError: tuple index out of range" }
      | some (x :: _) => { r2 with success := pyEqObj x (PyObj.int 1) }

/-- `test_basic_connectivity` (lines 89-130). -/
def test_basic_connectivity (exec : String → Except String (List (List PyObj)))
    (db_type : String) (elapsedMs : ℚ) : TestResult :=
  let r0 : TestResult :=
    { test := "basic_connectivity", success := false,
      response_time_ms := Option.none, error := Option.none, details := [] }
  let dt := pyLower db_type
  if dt = "mysql" then
    connectivityRun exec "SELECT 1 as test_value" "SELECT VERSION() as version"
      (fun v => v) r0 elapsedMs
  else if dt = "postgresql" then
    connectivityRun exec "SELECT 1 as test_value" "SELECT version() as version"
      (fun v => v) r0 elapsedMs
  else if dt = "sqlite" then
    connectivityRun exec "SELECT 1 as test_value" "SELECT sqlite_version() as version"
      (fun v => PyObj.str ("SQLite " ++ pyObjStr v)) r0 elapsedMs
  else
    -- No dialect branch ran: `cursor.fetchone()` on a cursor that never
    -- executed a query raises (unreachable from `main`, which fails to
    -- connect for unsupported types).
    { r0 with error := some "ProgrammingError: execute() first" }

/-- A healthy database as `test_basic_connectivity` queries it for the
mysql dialect: `SELECT 1` yields the single row `(1,)` and the version
query yields one row with the version string. -/
def healthyMySqlExec (ver : String) : String → Except String (List (List PyObj)) :=
  fun q =>
    if q = "SELECT 1 as test_value" then Except.ok [[PyObj.int 1]]
    else if q = "SELECT VERSION() as version" then Except.ok [[PyObj.str ver]]
    else Except.error ("OperationalError: unexpected query " ++ q)

example :
    (test_basic_connectivity (healthyMySqlExec "8.0.36") "mysql" 1).success = false := rfl
example :
    (test_basic_connectivity (healthyMySqlExec "8.0.36") "mysql" 1).error
      = some "TypeError: 'NoneType' object is not subscriptable" := rfl

/-! ## Table health (`get_table_health`, lines 277-365) -/

/-- A row of `information_schema.tables` for the connected schema's base
tables, as the mysql table-health query reads it (`table_rows` may be
NULL). -/
structure MysqlTable where
  table_name : String
  table_rows : Option Int
  data_length : Int
  index_length : Int
deriving Repr, DecidableEq

/-- A row of `pg_stat_user_tables` as the postgresql table-health query
reads it. -/
structure PgTable where
  schemaname : String
  tablename : String
  n_tup_ins : Int
  n_tup_upd : Int
  n_tup_del : Int
  n_live_tup : Int
  n_dead_tup : Int
deriving Repr, DecidableEq

/-- A user table of a sqlite database: its `sqlite_master` name and the
value `SELECT COUNT(*)` returns for it. -/
structure SqliteTable where
  name : String
  row_count : Int
deriving Repr, DecidableEq

/-- The tables visible to `get_table_health` through the connection, per
dialect. -/
inductive DbContent where
  | mysql (tables : List MysqlTable)
  | postgresql (tables : List PgTable)
  | sqlite (tables : List SqliteTable)
deriving Repr

/-- `ROUND(x, 2)` of the SQL size expressions (half away from zero does
not differ from half up on the non-negative sizes involved). -/
def round2 (q : ℚ) : ℚ := (round (q * 100) : ℤ) / 100

/-- The mysql ordering key `(data_length + index_length)`. -/
def mysqlSizeKey (t : MysqlTable) : Int := t.data_length + t.index_length

/-- `ORDER BY (data_length + index_length) DESC` as a relation. -/
def mysqlSizeGe (a b : MysqlTable) : Prop := mysqlSizeKey b ≤ mysqlSizeKey a

instance : DecidableRel mysqlSizeGe := fun _ _ => Int.decLe _ _

instance : IsTotal MysqlTable mysqlSizeGe :=
  ⟨fun a b => le_total (mysqlSizeKey b) (mysqlSizeKey a)⟩

instance : IsTrans MysqlTable mysqlSizeGe :=
  ⟨fun _ _ _ hab hbc => le_trans hbc hab⟩

/-- `ORDER BY n_live_tup DESC` as a relation. -/
def pgLiveGe (a b : PgTable) : Prop := b.n_live_tup ≤ a.n_live_tup

instance : DecidableRel pgLiveGe := fun _ _ => Int.decLe _ _

instance : IsTotal PgTable pgLiveGe :=
  ⟨fun a b => le_total b.n_live_tup a.n_live_tup⟩

instance : IsTrans PgTable pgLiveGe :=
  ⟨fun _ _ _ hab hbc => le_trans hbc hab⟩

/-- Lexicographic codepoint order on character lists (SQLite's default
BINARY collation for `ORDER BY name`; UTF-8 byte order and codepoint
order agree). -/
def charListLe : List Char → List Char → Bool
  | [], _ => true
  | _ :: _, [] => false
  | a :: as, b :: bs =>
      if a < b then true else if b < a then false else charListLe as bs

theorem charListLe_total : ∀ a b : List Char,
    charListLe a b = true ∨ charListLe b a = true
  | [], _ => Or.inl rfl
  | _ :: _, [] => Or.inr rfl
  | a :: as, b :: bs => by
      rcases lt_trichotomy a b with hab | hab | hab
      · exact Or.inl (by simp [charListLe, hab])
      · subst hab
        rcases charListLe_total as bs with h | h
        · exact Or.inl (by simp [charListLe, h])
        · exact Or.inr (by simp [charListLe, h])
      · exact Or.inr (by simp [charListLe, hab])

theorem charListLe_trans : ∀ a b c : List Char,
    charListLe a b = true → charListLe b c = true → charListLe a c = true
  | [], _, _, _, _ => rfl
  | _ :: _, [], _, h1, _ => by simp [charListLe] at h1
  | _ :: _, _ :: _, [], _, h2 => by simp [charListLe] at h2
  | a :: as, b :: bs, c :: cs, h1, h2 => by
      simp only [charListLe] at h1 h2 ⊢
      rcases lt_trichotomy a b with hab | hab | hab
      · rcases lt_trichotomy b c with hbc | hbc | hbc
        · simp [lt_trans hab hbc]
        · subst hbc; simp [hab]
        · rw [if_neg (asymm hbc), if_pos hbc] at h2; exact absurd h2 (by simp)
      · subst hab
        rw [if_neg (lt_irrefl a), if_neg (lt_irrefl a)] at h1
        rcases lt_trichotomy a c with hac | hac | hac
        · simp [hac]
        · subst hac
          rw [if_neg (lt_irrefl a), if_neg (lt_irrefl a)] at h2 ⊢
          exact charListLe_trans as bs cs h1 h2
        · rw [if_neg (asymm hac), if_pos hac] at h2; exact absurd h2 (by simp)
      · rw [if_neg (asymm hab), if_pos hab] at h1; exact absurd h1 (by simp)

/-- `ORDER BY name` (ascending) as a relation on sqlite tables. -/
def sqliteNameLe (a b : SqliteTable) : Prop :=
  charListLe a.name.data b.name.data = true

instance : DecidableRel sqliteNameLe := fun a b =>
  instDecidableEqBool (charListLe a.name.data b.name.data) true

instance : IsTotal SqliteTable sqliteNameLe :=
  ⟨fun a b => charListLe_total a.name.data b.name.data⟩

instance : IsTrans SqliteTable sqliteNameLe :=
  ⟨fun a b c => charListLe_trans a.name.data b.name.data c.name.data⟩

/-- The rows the mysql table-health query returns:
`ORDER BY (data_length + index_length) DESC LIMIT 20` (lines 292-305). -/
def mysqlTableRows (ts : List MysqlTable) : List MysqlTable :=
  (List.insertionSort mysqlSizeGe ts).take 20

/-- The rows the postgresql table-health query returns:
`ORDER BY n_live_tup DESC LIMIT 20` (lines 306-319). -/
def pgTableRows (ts : List PgTable) : List PgTable :=
  (List.insertionSort pgLiveGe ts).take 20

/-- The rows the sqlite table-health query returns:
`ORDER BY name`, with **no** `LIMIT` (line 321). -/
def sqliteTableRows (ts : List SqliteTable) : List SqliteTable :=
  List.insertionSort sqliteNameLe ts

/-- The `tables_info` entry built from a mysql row (lines 326-333);
`row[1] or 0` maps a NULL (or zero) `table_rows` to `0`. -/
def mysqlRowObj (t : MysqlTable) : PyObj :=
  PyObj.dict
    [("table_name", PyObj.str t.table_name),
     ("estimated_rows", PyObj.int (t.table_rows.getD 0)),
     ("total_size_mb", PyObj.rat (round2 ((mysqlSizeKey t : ℚ) / 1024 / 1024))),
     ("data_size_mb", PyObj.rat (round2 ((t.data_length : ℚ) / 1024 / 1024))),
     ("index_size_mb", PyObj.rat (round2 ((t.index_length : ℚ) / 1024 / 1024)))]

/-- The `tables_info` entry built from a postgresql row (lines 334-343). -/
def pgRowObj (t : PgTable) : PyObj :=
  PyObj.dict
    [("schema", PyObj.str t.schemaname),
     ("table_name", PyObj.str t.tablename),
     ("inserts", PyObj.int t.n_tup_ins),
     ("updates", PyObj.int t.n_tup_upd),
     ("deletes", PyObj.int t.n_tup_del),
     ("live_tuples", PyObj.int t.n_live_tup),
     ("dead_tuples", PyObj.int t.n_dead_tup)]

/-- The `tables_info` entry built from a sqlite row (lines 344-352); the
per-table `SELECT COUNT(*)` is the stored `row_count`. -/
def sqliteRowObj (t : SqliteTable) : PyObj :=
  PyObj.dict
    [("table_name", PyObj.str t.name),
     ("row_count", PyObj.int t.row_count)]

/-- `get_table_health` (lines 277-365).  The `db_type` dispatch is
`if mysql / elif postgresql / else sqlite` — the sqlite branch catches
every other type.  A dialect/content mismatch makes the query raise,
caught at line 362. -/
def get_table_health (content : DbContent) (db_type : String) (elapsedMs : ℚ) :
    TestResult :=
  let r0 : TestResult :=
    { test := "table_health", success := false,
      response_time_ms := Option.none, error := Option.none, details := [] }
  let dt := pyLower db_type
  if dt = "mysql" then
    match content with
    | DbContent.mysql ts =>
      let info := (mysqlTableRows ts).map mysqlRowObj
      let det : List (String × PyObj) :=
        [("tables", PyObj.list info), ("table_count", PyObj.int info.length)]
      { r0 with details := det, response_time_ms := some elapsedMs, success := true }
    | _ => { r0 with error := some "OperationalError: no such table: information_schema.tables" }
  else if dt = "postgresql" then
    match content with
    | DbContent.postgresql ts =>
      let info := (pgTableRows ts).map pgRowObj
      let det : List (String × PyObj) :=
        [("tables", PyObj.list info), ("table_count", PyObj.int info.length)]
      { r0 with details := det, response_time_ms := some elapsedMs, success := true }
    | _ => { r0 with error := some "OperationalError: no such table: pg_stat_user_tables" }
  else
    match content with
    | DbContent.sqlite ts =>
      let info := (sqliteTableRows ts).map sqliteRowObj
      let det : List (String × PyObj) :=
        [("tables", PyObj.list info), ("table_count", PyObj.int info.length)]
      { r0 with details := det, response_time_ms := some elapsedMs, success := true }
    | _ => { r0 with error := some "OperationalError: no such table: sqlite_master" }

/-- A sqlite database with 21 user tables. -/
def sqlite21 : List SqliteTable :=
  (List.range 21).map (fun i => { name := "t" ++ toString i, row_count := 0 })

example :
    ((get_table_health (DbContent.sqlite sqlite21) "sqlite" 0).details.lookup
      "table_count") = some (PyObj.int 21) := rfl

/-! ## The database `main` (lines 367-518) -/

/-- The database summary (lines 471-477 and 495-499):
`success_rate = successful_tests / max(total_tests, 1) * 100`. -/
def dbRunSummary (rs : List TestResult) : RunSummary :=
  let total := rs.length
  let succ := rs.countP (fun r => r.success)
  { total := total, successful := succ, failed := total - succ,
    success_rate := ((succ : ℚ) / ((max total 1 : Nat) : ℚ)) * 100 }

/-- `test_name.lower().replace(' ', '_')` (line 442). -/
def pyTestName (s : String) : String :=
  ⟨(pyLower s).data.map (fun c => if c = ' ' then '_' else c)⟩

/-- The fixed battery of line 414-419, in order. -/
def dbTestNames : List String :=
  ["Basic Connectivity", "Database Statistics", "Query Performance", "Table Health"]

/-- Outcome of calling one `test_func()` of the battery: a returned
result dictionary, or a raised exception (caught in lines 439-446). -/
inductive TestOutcome where
  | ok (r : TestResult)
  | raised (msg : String)

/-- The test loop of lines 421-447: every outcome appends exactly one
entry (the returned dict, or the synthetic `success=False` entry of
lines 441-445), and `overall_success` ends up as the conjunction of all
entry `success` flags. -/
def runTests (battery : String → TestOutcome) : List String → List TestResult × Bool
  | [] => ([], true)
  | n :: ns =>
    let entry : TestResult :=
      match battery n with
      | TestOutcome.ok r => r
      | TestOutcome.raised e =>
          { test := pyTestName n, success := false, response_time_ms := Option.none,
            error := some e, details := [] }
    let rest := runTests battery ns
    (entry :: rest.1, entry.success && rest.2)

/-- The resolved parameters of lines 374-380 (`db_type` as the string
`.lower()` is called on; the rest kept as `PyVal`s — only `database`
feeds back into control flow). -/
structure DbParams where
  db_type : String
  host : PyVal
  port : PyVal
  database : PyVal
  username : PyVal
  password : PyVal
  timeout : PyVal
deriving Repr

/-- Parameter resolution of `main` (lines 374-380), in source order; the
`port` default is `3306 if mysql else 5432 if postgresql else None`. -/
def resolveDbParams (env : String → Option String) : Except String DbParams :=
  match get_parameter_db env "db_type" (PyVal.str "mysql") PyType.str with
  | Except.error e => Except.error e
  | Except.ok dbTypeV =>
  match dbTypeV with
  | PyVal.str db_type =>
    let portDefault : PyVal :=
      if pyLower db_type = "mysql" then PyVal.int 3306
      else if pyLower db_type = "postgresql" then PyVal.int 5432
      else PyVal.none
    match get_parameter_db env "host" (PyVal.str "localhost") PyType.str with
    | Except.error e => Except.error e
    | Except.ok hostV =>
    match get_parameter_db env "port" portDefault PyType.int with
    | Except.error e => Except.error e
    | Except.ok portV =>
    match get_parameter_db env "database" PyVal.none PyType.str with
    | Except.error e => Except.error e
    | Except.ok databaseV =>
    match get_parameter_db env "username" PyVal.none PyType.str with
    | Except.error e => Except.error e
    | Except.ok usernameV =>
    match get_parameter_db env "password" PyVal.none PyType.str with
    | Except.error e => Except.error e
    | Except.ok passwordV =>
    match get_parameter_db env "timeout" (PyVal.int 30) PyType.int with
    | Except.error e => Except.error e
    | Except.ok timeoutV =>
      Except.ok
        { db_type := db_type, host := hostV, port := portV,
          database := databaseV, username := usernameV, password := passwordV,
          timeout := timeoutV }
  | _ => Except.error "AttributeError: object has no attribute lower"

/-- What the database `main` produces: exit code, the `all_results` list
(absent when the missing-`database` validation exits first), the
`overall_success` flag and the summary. -/
structure DbRun where
  exitCode : Nat
  results : Option (List TestResult)
  overall_success : Option Bool
  summary : Option RunSummary
deriving Repr

/-- The synthetic result appended when the connection cannot be
established (lines 453-457). -/
def connectionFailureEntry (e : String) : TestResult :=
  { test := "connection", success := false, response_time_ms := Option.none,
    error := some e, details := [] }

/-- `main` of `database_health_check.py` (lines 367-518).  The connection
attempt is `connOutcome` (`Except.error` = `create_database_connection`
raised); the four battery checks are the oracle `battery` (their
internals are verified separately on `test_basic_connectivity` and
`get_table_health`).  If the connection fails, no check runs: exactly the
one synthetic `"connection"` entry is recorded (lines 449-457) and the
run still proceeds to summary and report.  `connection.close()`
(lines 459-465) has no observable effect in the model and a close failure
is swallowed.  Exit code: 0 iff `overall_success` (lines 513-518). -/
def dbMain (env : String → Option String) (connOutcome : Except String Unit)
    (battery : String → TestOutcome) : Except String DbRun :=
  match resolveDbParams env with
  | Except.error e => Except.error e
  | Except.ok p =>
    if pyFalsy p.database then
      Except.ok
        { exitCode := 1, results := Option.none,
          overall_success := Option.none, summary := Option.none }
    else
      let ran : List TestResult × Bool :=
        match connOutcome with
        | Except.error e => ([connectionFailureEntry e], false)
        | Except.ok _ => runTests battery dbTestNames
      Except.ok
        { exitCode := if ran.2 then 0 else 1, results := some ran.1,
          overall_success := some ran.2, summary := some (dbRunSummary ran.1) }

def allOkBattery : String → TestOutcome := fun n =>
  TestOutcome.ok
    { test := pyTestName n, success := true, response_time_ms := Option.none,
      error := Option.none, details := [] }

example :
    (dbMain (fun k => if k = "PARAM_DATABASE" then some "mydb" else Option.none)
      (Except.error "Connection refused") allOkBattery) =
    Except.ok
      { exitCode := 1, results := some [connectionFailureEntry "Connection refused"],
        overall_success := some false,
        summary := some (dbRunSummary [connectionFailureEntry "Connection refused"]) } := rfl

/-! ## Parsing preservation lemmas -/

theorem foldParts_fst_preserve {α : Type} (proj : PingResult → α)
    (f : PingResult → String → PingResult × Option String)
    (hf : ∀ st p, proj ((f st p).1) = proj st) :
    ∀ st ps, proj ((foldParts f st ps).1) = proj st := by
  intro st ps
  induction ps generalizing st with
  | nil => rfl
  | cons p ps ih =>
      simp only [foldParts]
      rcases hfp : f st p with ⟨st', e⟩
      have h1 : proj st' = proj st := by
        have h2 := hf st p
        rw [hfp] at h2
        exact h2
      cases e with
      | none => rw [ih st', h1]
      | some e => exact h1

theorem unixPacketLine_success (st : PingResult) (l : String) :
    ((unixPacketLine st l).1).success = st.success := by
  simp only [unixPacketLine]
  repeat' split
  all_goals rfl

theorem unixPacketLine_host (st : PingResult) (l : String) :
    ((unixPacketLine st l).1).host = st.host := by
  simp only [unixPacketLine]
  repeat' split
  all_goals rfl

theorem unixPacketLine_min (st : PingResult) (l : String) :
    ((unixPacketLine st l).1).min_time = st.min_time := by
  simp only [unixPacketLine]
  repeat' split
  all_goals rfl

theorem unixPacketLine_avg (st : PingResult) (l : String) :
    ((unixPacketLine st l).1).avg_time = st.avg_time := by
  simp only [unixPacketLine]
  repeat' split
  all_goals rfl

theorem unixPacketLine_max (st : PingResult) (l : String) :
    ((unixPacketLine st l).1).max_time = st.max_time := by
  simp only [unixPacketLine]
  repeat' split
  all_goals rfl

theorem winPacketPart_success (st : PingResult) (p : String) :
    ((winPacketPart st p).1).success = st.success := by
  simp only [winPacketPart]
  repeat' split
  all_goals rfl

theorem winPacketPart_host (st : PingResult) (p : String) :
    ((winPacketPart st p).1).host = st.host := by
  simp only [winPacketPart]
  repeat' split
  all_goals rfl

theorem winPacketPart_min (st : PingResult) (p : String) :
    ((winPacketPart st p).1).min_time = st.min_time := by
  simp only [winPacketPart]
  repeat' split
  all_goals rfl

theorem winPacketPart_avg (st : PingResult) (p : String) :
    ((winPacketPart st p).1).avg_time = st.avg_time := by
  simp only [winPacketPart]
  repeat' split
  all_goals rfl

theorem winPacketPart_max (st : PingResult) (p : String) :
    ((winPacketPart st p).1).max_time = st.max_time := by
  simp only [winPacketPart]
  repeat' split
  all_goals rfl

theorem winPacketLine_success (st : PingResult) (l : String) :
    ((winPacketLine st l).1).success = st.success := by
  unfold winPacketLine
  split
  · exact foldParts_fst_preserve _ _ winPacketPart_success st _
  · rfl

theorem winPacketLine_host (st : PingResult) (l : String) :
    ((winPacketLine st l).1).host = st.host := by
  unfold winPacketLine
  split
  · exact foldParts_fst_preserve _ _ winPacketPart_host st _
  · rfl

theorem winPacketLine_min (st : PingResult) (l : String) :
    ((winPacketLine st l).1).min_time = st.min_time := by
  unfold winPacketLine
  split
  · exact foldParts_fst_preserve _ _ winPacketPart_min st _
  · rfl

theorem winPacketLine_avg (st : PingResult) (l : String) :
    ((winPacketLine st l).1).avg_time = st.avg_time := by
  unfold winPacketLine
  split
  · exact foldParts_fst_preserve _ _ winPacketPart_avg st _
  · rfl

theorem winPacketLine_max (st : PingResult) (l : String) :
    ((winPacketLine st l).1).max_time = st.max_time := by
  unfold winPacketLine
  split
  · exact foldParts_fst_preserve _ _ winPacketPart_max st _
  · rfl

set_option maxHeartbeats 1000000 in
theorem unixTimeLine_success (st : PingResult) (l : String) :
    ((unixTimeLine st l).1).success = st.success := by
  unfold unixTimeLine
  split
  · dsimp only
    repeat' split
    all_goals rfl
  · rfl

set_option maxHeartbeats 1000000 in
theorem unixTimeLine_host (st : PingResult) (l : String) :
    ((unixTimeLine st l).1).host = st.host := by
  unfold unixTimeLine
  split
  · dsimp only
    repeat' split
    all_goals rfl
  · rfl

theorem winTimePart_success (st : PingResult) (p : String) :
    ((winTimePart st p).1).success = st.success := by
  simp only [winTimePart]
  repeat' split
  all_goals rfl

theorem winTimePart_host (st : PingResult) (p : String) :
    ((winTimePart st p).1).host = st.host := by
  simp only [winTimePart]
  repeat' split
  all_goals rfl

theorem winTimeLine_success (st : PingResult) (l : String) :
    ((winTimeLine st l).1).success = st.success :=
  foldParts_fst_preserve _ _ winTimePart_success st _

theorem winTimeLine_host (st : PingResult) (l : String) :
    ((winTimeLine st l).1).host = st.host :=
  foldParts_fst_preserve _ _ winTimePart_host st _

theorem parseLine_success (w : Bool) (st : PingResult) (l : String) :
    ((parseLine w st l).1).success = st.success := by
  simp only [parseLine]
  split
  · cases w
    · simpa using unixPacketLine_success st (pyTrim l)
    · simpa using winPacketLine_success st (pyTrim l)
  · split
    · cases w
      · simpa using unixTimeLine_success st (pyTrim l)
      · simpa using winTimeLine_success st (pyTrim l)
    · rfl

theorem parseLine_host (w : Bool) (st : PingResult) (l : String) :
    ((parseLine w st l).1).host = st.host := by
  simp only [parseLine]
  split
  · cases w
    · simpa using unixPacketLine_host st (pyTrim l)
    · simpa using winPacketLine_host st (pyTrim l)
  · split
    · cases w
      · simpa using unixTimeLine_host st (pyTrim l)
      · simpa using winTimeLine_host st (pyTrim l)
    · rfl

/-- Parsing a line without a timing marker never writes the timing
fields: the packet-statistics handlers only touch the packet fields, and
the timing branch is guarded by the marker condition. -/
theorem parseLine_timing (w : Bool) (st : PingResult) (l : String)
    (h : (pyContains "min/avg/max" (pyTrim l)
          || pyContains "Minimum/Maximum/Average" (pyTrim l)) = false) :
    ((parseLine w st l).1).min_time = st.min_time ∧
    ((parseLine w st l).1).avg_time = st.avg_time ∧
    ((parseLine w st l).1).max_time = st.max_time := by
  simp only [parseLine]
  split
  · cases w
    · simpa using ⟨unixPacketLine_min st (pyTrim l), unixPacketLine_avg st (pyTrim l),
        unixPacketLine_max st (pyTrim l)⟩
    · simpa using ⟨winPacketLine_min st (pyTrim l), winPacketLine_avg st (pyTrim l),
        winPacketLine_max st (pyTrim l)⟩
  · split
    · simp_all
    · exact ⟨rfl, rfl, rfl⟩

theorem parseLines_fst_preserve {α : Type} (proj : PingResult → α) (w : Bool) :
    ∀ ls : List String, (∀ l ∈ ls, ∀ st, proj ((parseLine w st l).1) = proj st) →
      ∀ st, proj ((parseLines w st ls).1) = proj st := by
  intro ls
  induction ls with
  | nil => intro _ st; rfl
  | cons l ls ih =>
      intro h st
      simp only [parseLines]
      rcases hfp : parseLine w st l with ⟨st', e⟩
      have h1 : proj st' = proj st := by
        have h2 := h l (List.mem_cons_self l ls) st
        rw [hfp] at h2
        exact h2
      cases e with
      | none => rw [ih (fun x hx => h x (List.mem_cons_of_mem l hx)) st', h1]
      | some e => exact h1

theorem parseLines_success (w : Bool) (st : PingResult) (ls : List String) :
    ((parseLines w st ls).1).success = st.success :=
  parseLines_fst_preserve _ w ls (fun l _ st' => parseLine_success w st' l) st

theorem parseLines_host (w : Bool) (st : PingResult) (ls : List String) :
    ((parseLines w st ls).1).host = st.host :=
  parseLines_fst_preserve _ w ls (fun l _ st' => parseLine_host w st' l) st

/-! ## `ping_host` facts -/

theorem parseLines_timing (w : Bool) (ls : List String)
    (h : ∀ l ∈ ls, (pyContains "min/avg/max" (pyTrim l)
        || pyContains "Minimum/Maximum/Average" (pyTrim l)) = false)
    (st : PingResult) :
    ((parseLines w st ls).1).min_time = st.min_time ∧
    ((parseLines w st ls).1).avg_time = st.avg_time ∧
    ((parseLines w st ls).1).max_time = st.max_time :=
  ⟨parseLines_fst_preserve _ w ls (fun l hl st' => (parseLine_timing w st' l (h l hl)).1) st,
   parseLines_fst_preserve _ w ls (fun l hl st' => (parseLine_timing w st' l (h l hl)).2.1) st,
   parseLines_fst_preserve _ w ls (fun l hl st' => (parseLine_timing w st' l (h l hl)).2.2) st⟩

theorem ping_host_success_eq (windows : Bool) (host : String) (count timeout : Int)
    (run : List String → Int → PingOutcome) (rc : Int) (out err : String)
    (h : run (buildPingCmd windows host count timeout) (timeout * count + 10)
          = PingOutcome.completed rc out err) :
    (ping_host windows host count timeout run).success = (rc == 0) := by
  unfold ping_host
  rw [h]
  cases hrc : (rc == 0) with
  | true =>
      simp only [hrc, if_true]
      rcases hp : parseLines windows
          { initPingResult host with success := true } (pySplitOn '\n' out) with ⟨st', e⟩
      have hs : st'.success = true := by
        have h2 := parseLines_success windows
          { initPingResult host with success := true } (pySplitOn '\n' out)
        rw [hp] at h2
        exact h2
      cases e <;> simpa using hs
  | false =>
      simp [hrc, initPingResult]

theorem ping_host_nonzero_eq (windows : Bool) (host : String) (count timeout : Int)
    (run : List String → Int → PingOutcome) (rc : Int) (out err : String)
    (h : run (buildPingCmd windows host count timeout) (timeout * count + 10)
          = PingOutcome.completed rc out err)
    (hrc : (rc == 0) = false) :
    ping_host windows host count timeout run
      = { initPingResult host with error := some (if err ≠ "" then err
            else "Ping failed with return code " ++ toString rc) } := by
  unfold ping_host
  rw [h]
  dsimp only
  rw [hrc]
  rfl

theorem ping_host_timedOut_eq (windows : Bool) (host : String) (count timeout : Int)
    (run : List String → Int → PingOutcome)
    (h : run (buildPingCmd windows host count timeout) (timeout * count + 10)
          = PingOutcome.timedOut) :
    ping_host windows host count timeout run
      = { initPingResult host with error := some ("Ping timeout after "
            ++ toString (timeout * count + 10) ++ " seconds") } := by
  unfold ping_host
  rw [h]

theorem ping_host_raised_eq (windows : Bool) (host : String) (count timeout : Int)
    (run : List String → Int → PingOutcome) (m : String)
    (h : run (buildPingCmd windows host count timeout) (timeout * count + 10)
          = PingOutcome.raised m) :
    ping_host windows host count timeout run
      = { initPingResult host with error := some m } := by
  unfold ping_host
  rw [h]

theorem ping_host_host (windows : Bool) (host : String) (count timeout : Int)
    (run : List String → Int → PingOutcome) :
    (ping_host windows host count timeout run).host = host := by
  unfold ping_host
  cases hr : run (buildPingCmd windows host count timeout) (timeout * count + 10) with
  | completed rc out err =>
      cases hrc : (rc == 0) with
      | true =>
          simp only [hrc, if_true]
          rcases hp : parseLines windows
              { initPingResult host with success := true } (pySplitOn '\n' out) with ⟨st', e⟩
          have h2 := parseLines_host windows
            { initPingResult host with success := true } (pySplitOn '\n' out)
          rw [hp] at h2
          cases e <;> simpa using h2
      | false => simp [hrc, initPingResult]
  | timedOut => rfl
  | raised m => rfl

/-! ## Claims C4, C9, C10 -/

/-- C4: For every ping probe that runs the external tool to completion
(no timeout, no exception), the Probe Result's success flag is true if
and only if the tool's return status is zero; in particular, when the
return status is zero but parsing of the textual statistics fails — here:
no line of stdout carries a timing-statistics marker — success is still
true and the numeric timing fields stay null. -/
theorem C4_ping_success_iff_zero_status (windows : Bool) (host : String)
    (count timeout : Int) (run : List String → Int → PingOutcome)
    (rc : Int) (out err : String)
    (h : run (buildPingCmd windows host count timeout) (timeout * count + 10)
          = PingOutcome.completed rc out err) :
    ((ping_host windows host count timeout run).success = (rc == 0)) ∧
    (rc = 0 →
      (∀ l ∈ pySplitOn '\n' out,
        (pyContains "min/avg/max" (pyTrim l)
          || pyContains "Minimum/Maximum/Average" (pyTrim l)) = false) →
      (ping_host windows host count timeout run).min_time = Option.none ∧
      (ping_host windows host count timeout run).avg_time = Option.none ∧
      (ping_host windows host count timeout run).max_time = Option.none) := by
  refine ⟨ping_host_success_eq windows host count timeout run rc out err h, ?_⟩
  intro hrc0 hmark
  have hb : (rc == 0) = true := by rw [hrc0]; rfl
  unfold ping_host
  rw [h]
  dsimp only
  simp only [hb, if_true]
  rcases hp : parseLines windows
      { initPingResult host with success := true } (pySplitOn '\n' out) with ⟨st', e⟩
  have ht := parseLines_timing windows (pySplitOn '\n' out) hmark
    { initPingResult host with success := true }
  rw [hp] at ht
  cases e <;> simpa using ht

/-- C9: Each ping invocation passes the wall-clock bound
`timeout * count + 10` seconds to the external transport (and consults
the transport only at that bound), and when that bound expires the Probe
Result has success=false, the timeout error message naming that bound,
and the packets-sent/received/loss fields left at their initial
zero / 100%-loss defaults. -/
theorem C9_timeout_bound_and_result (windows : Bool) (host : String)
    (count timeout : Int) (run : List String → Int → PingOutcome) :
    (∀ run' : List String → Int → PingOutcome,
       run (buildPingCmd windows host count timeout) (timeout * count + 10)
         = run' (buildPingCmd windows host count timeout) (timeout * count + 10) →
       ping_host windows host count timeout run
         = ping_host windows host count timeout run') ∧
    (run (buildPingCmd windows host count timeout) (timeout * count + 10)
        = PingOutcome.timedOut →
       (ping_host windows host count timeout run).success = false ∧
       (ping_host windows host count timeout run).error
         = some ("Ping timeout after " ++ toString (timeout * count + 10) ++ " seconds") ∧
       (ping_host windows host count timeout run).packets_sent = 0 ∧
       (ping_host windows host count timeout run).packets_received = 0 ∧
       (ping_host windows host count timeout run).packet_loss_percent = 100) := by
  constructor
  · intro run' hagree
    unfold ping_host
    rw [hagree]
  · intro h
    rw [ping_host_timedOut_eq windows host count timeout run h]
    exact ⟨rfl, rfl, rfl, rfl, rfl⟩

/-- C10: Every failed ping Probe Result (non-zero return status, timeout,
or exception) keeps packets_sent = 0, packets_received = 0 and
packet_loss_percent = 100, because output parsing only runs on the
zero-return-status path; hence partial packet loss is never recorded on
a failed result and the `packet_loss_percent < 100` "Partial success"
progress line is unreachable. -/
theorem C10_failed_result_fields (windows : Bool) (host : String)
    (count timeout : Int) (run : List String → Int → PingOutcome)
    (h : (ping_host windows host count timeout run).success = false) :
    (ping_host windows host count timeout run).packets_sent = 0 ∧
    (ping_host windows host count timeout run).packets_received = 0 ∧
    (ping_host windows host count timeout run).packet_loss_percent = 100 ∧
    ¬ ((ping_host windows host count timeout run).packet_loss_percent < 100) := by
  cases hr : run (buildPingCmd windows host count timeout) (timeout * count + 10) with
  | completed rc out err =>
      cases hrc : (rc == 0) with
      | true =>
          have hs := ping_host_success_eq windows host count timeout run rc out err hr
          rw [hrc, h] at hs
          exact absurd hs (by simp)
      | false =>
          rw [ping_host_nonzero_eq windows host count timeout run rc out err hr hrc]
          exact ⟨rfl, rfl, rfl, lt_irrefl _⟩
  | timedOut =>
      rw [ping_host_timedOut_eq windows host count timeout run hr]
      exact ⟨rfl, rfl, rfl, lt_irrefl _⟩
  | raised m =>
      rw [ping_host_raised_eq windows host count timeout run m hr]
      exact ⟨rfl, rfl, rfl, lt_irrefl _⟩

/-- A transport whose probe completes at once with status 0 and
unparseable stdout. -/
def pingRunAllOk : List String → Int → PingOutcome :=
  fun _ _ => PingOutcome.completed 0 "ok" ""

/-- A transport that always hits the wall-clock bound. -/
def pingRunTimeout : List String → Int → PingOutcome :=
  fun _ _ => PingOutcome.timedOut

theorem C4_witness :
    ((ping_host false "h" 4 5 pingRunAllOk).success = ((0 : Int) == 0)) ∧
    ((ping_host false "h" 4 5 pingRunAllOk).min_time = Option.none ∧
     (ping_host false "h" 4 5 pingRunAllOk).avg_time = Option.none ∧
     (ping_host false "h" 4 5 pingRunAllOk).max_time = Option.none) := by
  have t := C4_ping_success_iff_zero_status false "h" 4 5 pingRunAllOk 0 "ok" "" rfl
  exact ⟨t.1, t.2 rfl (by decide)⟩

theorem C9_witness :
    ((ping_host false "h" 4 5 pingRunTimeout).success = false ∧
     (ping_host false "h" 4 5 pingRunTimeout).error
       = some "Ping timeout after 30 seconds" ∧
     (ping_host false "h" 4 5 pingRunTimeout).packets_sent = 0 ∧
     (ping_host false "h" 4 5 pingRunTimeout).packets_received = 0 ∧
     (ping_host false "h" 4 5 pingRunTimeout).packet_loss_percent = 100) := by
  have t := C9_timeout_bound_and_result false "h" 4 5 pingRunTimeout
  have h1 := t.1 pingRunTimeout rfl
  exact t.2 rfl

theorem C10_witness :
    (ping_host false "h" 4 5 pingRunTimeout).packets_sent = 0 ∧
    (ping_host false "h" 4 5 pingRunTimeout).packets_received = 0 ∧
    (ping_host false "h" 4 5 pingRunTimeout).packet_loss_percent = 100 ∧
    ¬ ((ping_host false "h" 4 5 pingRunTimeout).packet_loss_percent < 100) :=
  C10_failed_result_fields false "h" 4 5 pingRunTimeout rfl

/-! ## Claims C5, C8, C1 -/

/-- C5: The claim says the Connectivity check succeeds iff the trivial
query returns the literal 1.  The code cannot observe that value: the
version query is executed on the same cursor after `SELECT 1`, which
discards the `SELECT 1` result set, and `test_result = cursor.fetchone()`
then reads a *second* row from the single-row version result set,
getting `None`; `test_result[0]` raises `TypeError`, so on a healthy
database the check records success=False (with the version detail and
the response time already recorded). -/
theorem C5_connectivity_check_bug :
    (test_basic_connectivity (healthyMySqlExec "8.0.36") "mysql" 1).success = false ∧
    (test_basic_connectivity (healthyMySqlExec "8.0.36") "mysql" 1).error
      = some "TypeError: 'NoneType' object is not subscriptable" ∧
    (test_basic_connectivity (healthyMySqlExec "8.0.36") "mysql" 1).details
      = [("version", PyObj.str "8.0.36")] ∧
    (test_basic_connectivity (healthyMySqlExec "8.0.36") "mysql" 1).response_time_ms
      = some 1 :=
  ⟨rfl, rfl, rfl, rfl⟩

/-- C8 counterexample: on a sqlite database with 21 tables, the Table
Health check enumerates all 21 of them — the sqlite query has no
`LIMIT 20` — refuting "enumerates at most 20 tables". -/
theorem C8_counterexample :
    ∃ l, ((get_table_health (DbContent.sqlite sqlite21) "sqlite" 0).details.lookup
        "tables") = some (PyObj.list l) ∧ l.length = 21 ∧ 20 < l.length :=
  ⟨(sqliteTableRows sqlite21).map sqliteRowObj, rfl, rfl, by decide⟩

/-- C8 (amended): the Table Health check enumerates at most 20 tables
for mysql (ordered by total on-disk size descending) and postgresql
(ordered by live-tuple count descending); for sqlite it enumerates ALL
tables (no 20-table cap), ordered by table name ascending. -/
theorem C8_table_health_amended :
    (∀ (q : ℚ) (ts : List MysqlTable),
       (get_table_health (DbContent.mysql ts) "mysql" q).details
         = [("tables", PyObj.list ((mysqlTableRows ts).map mysqlRowObj)),
            ("table_count", PyObj.int ((mysqlTableRows ts).map mysqlRowObj).length)] ∧
       (mysqlTableRows ts).length ≤ 20 ∧
       List.Sorted mysqlSizeGe (mysqlTableRows ts)) ∧
    (∀ (q : ℚ) (ts : List PgTable),
       (get_table_health (DbContent.postgresql ts) "postgresql" q).details
         = [("tables", PyObj.list ((pgTableRows ts).map pgRowObj)),
            ("table_count", PyObj.int ((pgTableRows ts).map pgRowObj).length)] ∧
       (pgTableRows ts).length ≤ 20 ∧
       List.Sorted pgLiveGe (pgTableRows ts)) ∧
    (∀ (q : ℚ) (ts : List SqliteTable),
       (get_table_health (DbContent.sqlite ts) "sqlite" q).details
         = [("tables", PyObj.list ((sqliteTableRows ts).map sqliteRowObj)),
            ("table_count", PyObj.int ((sqliteTableRows ts).map sqliteRowObj).length)] ∧
       (sqliteTableRows ts).length = ts.length ∧
       List.Sorted sqliteNameLe (sqliteTableRows ts)) := by
  refine ⟨fun q ts => ⟨rfl, ?_, ?_⟩, fun q ts => ⟨rfl, ?_, ?_⟩, fun q ts => ⟨rfl, ?_, ?_⟩⟩
  · unfold mysqlTableRows
    rw [List.length_take]
    exact min_le_left _ _
  · exact (List.sorted_insertionSort mysqlSizeGe ts).sublist (List.take_sublist _ _)
  · unfold pgTableRows
    rw [List.length_take]
    exact min_le_left _ _
  · exact (List.sorted_insertionSort pgLiveGe ts).sublist (List.take_sublist _ _)
  · exact List.length_insertionSort sqliteNameLe ts
  · exact List.sorted_insertionSort sqliteNameLe ts

/-- C1 counterexample: the network variant's summary has no
`max(total, 1)` guard — on the empty result sequence the success-rate
division raises `ZeroDivisionError` (modelled `Option.none`) instead of
yielding rate 0. -/
theorem C1_counterexample : networkRunSummary [] = Option.none := by
  simp [networkRunSummary, pyDivQ]

/-- C1 (amended): the database variant's Run Summary satisfies
`successes + failures = total` and `0 ≤ rate ≤ 100` for every sequence,
with the `max(total, 1)` guard giving rate 0 on the empty sequence; the
network variant computes `successes / total * 100` without the guard, so
the same invariants hold for every non-empty sequence, while the empty
sequence (unreachable behind the host-list validation) divides by
zero. -/
theorem C1_summary_invariants_amended :
    (∀ rs : List TestResult,
       (dbRunSummary rs).successful + (dbRunSummary rs).failed = (dbRunSummary rs).total ∧
       0 ≤ (dbRunSummary rs).success_rate ∧ (dbRunSummary rs).success_rate ≤ 100) ∧
    ((dbRunSummary []).success_rate = 0) ∧
    (∀ rs : List PingResult, rs ≠ [] →
       ∃ s, networkRunSummary rs = some s ∧
         s.successful + s.failed = s.total ∧
         0 ≤ s.success_rate ∧ s.success_rate ≤ 100) := by
  refine ⟨fun rs => ?_, by simp [dbRunSummary], fun rs hne => ?_⟩
  · have hcl : rs.countP (fun r => r.success) ≤ rs.length := List.countP_le_length _
    refine ⟨Nat.add_sub_cancel' hcl, ?_, ?_⟩
    · simp only [dbRunSummary]
      positivity
    · simp only [dbRunSummary]
      have hden : (0 : ℚ) < ((max rs.length 1 : ℕ) : ℚ) := by
        exact_mod_cast Nat.lt_of_lt_of_le Nat.zero_lt_one (Nat.le_max_right _ 1)
      have hnum : ((rs.countP (fun r => r.success) : ℕ) : ℚ)
          ≤ ((max rs.length 1 : ℕ) : ℚ) := by
        exact_mod_cast le_trans hcl (Nat.le_max_left _ _)
      have h1 : ((rs.countP (fun r => r.success) : ℕ) : ℚ)
          / ((max rs.length 1 : ℕ) : ℚ) ≤ 1 := (div_le_one hden).mpr hnum
      calc ((rs.countP (fun r => r.success) : ℕ) : ℚ)
            / ((max rs.length 1 : ℕ) : ℚ) * 100
          ≤ 1 * 100 := mul_le_mul_of_nonneg_right h1 (by norm_num)
        _ = 100 := by norm_num
  · have hlen : rs.length ≠ 0 := fun h0 => hne (List.length_eq_zero.mp h0)
    have hcast : ((rs.length : ℕ) : ℚ) ≠ 0 := Nat.cast_ne_zero.mpr hlen
    have hcl : rs.countP (fun p => p.success) ≤ rs.length := List.countP_le_length _
    have hden : (0 : ℚ) < ((rs.length : ℕ) : ℚ) := by
      exact_mod_cast Nat.pos_of_ne_zero hlen
    have heq : networkRunSummary rs = some
        ⟨rs.length, rs.countP (fun p => p.success),
         rs.length - rs.countP (fun p => p.success),
         ((rs.countP (fun p => p.success) : ℕ) : ℚ) / ((rs.length : ℕ) : ℚ) * 100⟩ := by
      simp only [networkRunSummary, pyDivQ, if_neg hcast, Option.map_some']
    refine ⟨_, heq, Nat.add_sub_cancel' hcl, ?_, ?_⟩
    · positivity
    · have hnum : ((rs.countP (fun p => p.success) : ℕ) : ℚ)
          ≤ ((rs.length : ℕ) : ℚ) := by exact_mod_cast hcl
      have h1 : ((rs.countP (fun p => p.success) : ℕ) : ℚ)
          / ((rs.length : ℕ) : ℚ) ≤ 1 := (div_le_one hden).mpr hnum
      calc ((rs.countP (fun p => p.success) : ℕ) : ℚ)
            / ((rs.length : ℕ) : ℚ) * 100
          ≤ 1 * 100 := mul_le_mul_of_nonneg_right h1 (by norm_num)
        _ = 100 := by norm_num

theorem C1_witness :
    ∃ s, networkRunSummary [initPingResult "h"] = some s ∧
      s.successful + s.failed = s.total ∧
      0 ≤ s.success_rate ∧ s.success_rate ≤ 100 :=
  C1_summary_invariants_amended.2.2 [initPingResult "h"] (by simp)

/-! ## Resolution lemmas and the network claims C2, C3 -/

theorem gpNet_str_resolve (env : String → Option String) (name s : String) :
    get_parameter_net env name (PyVal.str s) PyType.str
      = Except.ok (PyVal.str ((env ("PARAM_" ++ pyUpper name)).getD s)) := by
  cases h : env ("PARAM_" ++ pyUpper name) <;> simp [get_parameter_net, h]

theorem gpNet_int_resolve (env : String → Option String) (name : String) (n : Int) :
    ∃ m : Int, get_parameter_net env name (PyVal.int n) PyType.int
      = Except.ok (PyVal.int m) := by
  cases h : env ("PARAM_" ++ pyUpper name) with
  | none => exact ⟨n, by simp [get_parameter_net, h]⟩
  | some s =>
      cases hi : pyIntStr s with
      | none => exact ⟨n, by simp [get_parameter_net, h, hi]⟩
      | some k => exact ⟨k, by simp [get_parameter_net, h, hi]⟩

/-- The validated host list of the network `main` (lines 156-169). -/
def hostsOf (env : String → Option String) : List String :=
  pySplitCommaClean ((env "PARAM_HOSTS").getD "")

theorem networkMain_empty (windows : Bool) (env : String → Option String)
    (run : List String → Int → PingOutcome) (h : hostsOf env = []) :
    networkMain windows env run
      = Except.ok { exitCode := 1, results := Option.none, summary := Option.none } := by
  have e1 : ("PARAM_" ++ pyUpper "hosts") = "PARAM_HOSTS" := rfl
  have hh := gpNet_str_resolve env "hosts" ""
  rw [e1] at hh
  obtain ⟨c, hc⟩ := gpNet_int_resolve env "count" 4
  obtain ⟨t, ht⟩ := gpNet_int_resolve env "timeout" 5
  unfold networkMain
  rw [hh, hc, ht]
  by_cases h0 : (env "PARAM_HOSTS").getD "" = ""
  · simp [pyFalsy, h0]
  · have hf : pyFalsy (PyVal.str ((env "PARAM_HOSTS").getD "")) = false := by
      simp [pyFalsy, h0]
    have hemp : (pySplitCommaClean ((env "PARAM_HOSTS").getD "")).isEmpty = true := by
      rw [show pySplitCommaClean ((env "PARAM_HOSTS").getD "") = hostsOf env from rfl, h]
      rfl
    simp [hf, hemp]

theorem networkMain_nonempty (windows : Bool) (env : String → Option String)
    (run : List String → Int → PingOutcome) (count timeout : Int)
    (hc : get_parameter_net env "count" (PyVal.int 4) PyType.int
            = Except.ok (PyVal.int count))
    (ht : get_parameter_net env "timeout" (PyVal.int 5) PyType.int
            = Except.ok (PyVal.int timeout))
    (hne : hostsOf env ≠ []) :
    ∃ summ,
      networkMain windows env run = Except.ok
        { exitCode :=
            (if ((hostsOf env).map (fun h => ping_host windows h count timeout run)).countP
                  (fun p => p.success) = (hostsOf env).length then 0
             else if 0 < ((hostsOf env).map
                  (fun h => ping_host windows h count timeout run)).countP
                  (fun p => p.success) then 1 else 2),
          results := some ((hostsOf env).map (fun h => ping_host windows h count timeout run)),
          summary := some summ } := by
  have e1 : ("PARAM_" ++ pyUpper "hosts") = "PARAM_HOSTS" := rfl
  have hh := gpNet_str_resolve env "hosts" ""
  rw [e1] at hh
  have h0 : (env "PARAM_HOSTS").getD "" ≠ "" := by
    intro h0
    refine hne ?_
    rw [show hostsOf env = pySplitCommaClean ((env "PARAM_HOSTS").getD "") from rfl, h0]
    rfl
  have hf : pyFalsy (PyVal.str ((env "PARAM_HOSTS").getD "")) = false := by
    simp [pyFalsy, h0]
  have hemp : (pySplitCommaClean ((env "PARAM_HOSTS").getD "")).isEmpty = false := by
    rw [show pySplitCommaClean ((env "PARAM_HOSTS").getD "") = hostsOf env from rfl]
    cases hl : hostsOf env with
    | nil => exact absurd hl hne
    | cons a l => rfl
  have hlen0 : ((hostsOf env).map (fun h => ping_host windows h count timeout run)).length ≠ 0 := by
    intro hz
    rw [List.length_map] at hz
    exact hne (List.length_eq_zero.mp hz)
  have hcast : ((((hostsOf env).map (fun h => ping_host windows h count timeout run)).length
      : ℕ) : ℚ) ≠ 0 := Nat.cast_ne_zero.mpr hlen0
  have hsum : networkRunSummary
        ((hostsOf env).map (fun h => ping_host windows h count timeout run))
      = some ⟨((hostsOf env).map (fun h => ping_host windows h count timeout run)).length,
          ((hostsOf env).map (fun h => ping_host windows h count timeout run)).countP
            (fun p => p.success),
          ((hostsOf env).map (fun h => ping_host windows h count timeout run)).length -
          ((hostsOf env).map (fun h => ping_host windows h count timeout run)).countP
            (fun p => p.success),
          ((((hostsOf env).map (fun h => ping_host windows h count timeout run)).countP
            (fun p => p.success) : ℕ) : ℚ) /
            ((((hostsOf env).map (fun h => ping_host windows h count timeout run)).length
              : ℕ) : ℚ) * 100⟩ := by
    simp only [networkRunSummary, pyDivQ, if_neg hcast, Option.map_some']
  unfold networkMain
  rw [hh, hc, ht]
  simp only [hf, hemp, Bool.false_eq_true, if_false]
  rw [show pySplitCommaClean ((env "PARAM_HOSTS").getD "") = hostsOf env from rfl]
  rw [hsum]
  exact ⟨_, rfl⟩

/-- C2: The network check's exit code is exactly 0 when every host's
Probe Result is successful, 1 when at least one but not all hosts
failed, 2 when all hosts failed, and 1 — before any probe runs — when
the required `hosts` parameter is missing or empty (the validated host
list is empty). -/
theorem C2_network_exit_codes (windows : Bool) (env : String → Option String)
    (run : List String → Int → PingOutcome) :
    ∃ r, networkMain windows env run = Except.ok r ∧
      (hostsOf env = [] → r.exitCode = 1 ∧ r.results = Option.none) ∧
      (∀ rs, r.results = some rs → rs ≠ [] ∧
        r.exitCode = (if rs.countP (fun p => p.success) = rs.length then 0
          else if 0 < rs.countP (fun p => p.success) then 1 else 2)) ∧
      (hostsOf env ≠ [] → r.results ≠ Option.none) := by
  by_cases h : hostsOf env = []
  · refine ⟨_, networkMain_empty windows env run h, fun _ => ⟨rfl, rfl⟩, ?_, fun hne => absurd h hne⟩
    intro rs hrs
    exact absurd hrs (by simp)
  · obtain ⟨c, hc⟩ := gpNet_int_resolve env "count" 4
    obtain ⟨t, ht⟩ := gpNet_int_resolve env "timeout" 5
    obtain ⟨summ, hmain⟩ := networkMain_nonempty windows env run c t hc ht h
    refine ⟨_, hmain, fun h0 => absurd h0 h, ?_, fun _ => by simp⟩
    intro rs hrs
    have hrs' : rs = (hostsOf env).map (fun hh => ping_host windows hh c t run) := by
      simpa using hrs.symm
    subst hrs'
    constructor
    · intro hz
      exact h (by simpa using hz)
    · rw [List.length_map]

/-- C3: For every ordered host list, the network executor produces
exactly one Probe Result per host, in input order — the i-th result is
`ping_host` of the i-th host, carrying that host's identifier — and each
entry is a function of its own host's transport outcome alone, so a
failure of one host never prevents the remaining hosts from being
probed. -/
theorem C3_one_result_per_host_in_order (windows : Bool) (env : String → Option String)
    (run : List String → Int → PingOutcome) (count timeout : Int)
    (hc : get_parameter_net env "count" (PyVal.int 4) PyType.int
            = Except.ok (PyVal.int count))
    (ht : get_parameter_net env "timeout" (PyVal.int 5) PyType.int
            = Except.ok (PyVal.int timeout))
    (hne : hostsOf env ≠ []) :
    ∃ r rs, networkMain windows env run = Except.ok r ∧ r.results = some rs ∧
      rs = (hostsOf env).map (fun h => ping_host windows h count timeout run) ∧
      rs.length = (hostsOf env).length ∧
      ∀ (i : Nat) (hi : i < (hostsOf env).length) (hi2 : i < rs.length),
        rs.get ⟨i, hi2⟩
          = ping_host windows ((hostsOf env).get ⟨i, hi⟩) count timeout run ∧
        (rs.get ⟨i, hi2⟩).host = (hostsOf env).get ⟨i, hi⟩ := by
  obtain ⟨summ, hmain⟩ := networkMain_nonempty windows env run count timeout hc ht hne
  refine ⟨_, _, hmain, rfl, rfl, List.length_map _ _, ?_⟩
  intro i hi hi2
  have hget : ((hostsOf env).map (fun h => ping_host windows h count timeout run)).get ⟨i, hi2⟩
      = ping_host windows ((hostsOf env).get ⟨i, hi⟩) count timeout run := by
    simp [List.get_eq_getElem, List.getElem_map]
  exact ⟨hget, by rw [hget, ping_host_host]⟩

/-- An environment carrying two hosts and nothing else. -/
def envTwoHosts : String → Option String :=
  fun k => if k = "PARAM_HOSTS" then some "h1,h2" else Option.none

theorem C2_witness :
    ∃ r, networkMain false envTwoHosts pingRunAllOk = Except.ok r ∧
      r.results ≠ Option.none := by
  obtain ⟨r, hr, _, _, h3⟩ := C2_network_exit_codes false envTwoHosts pingRunAllOk
  exact ⟨r, hr, h3 (by decide)⟩

theorem C3_witness :
    ∃ r rs, networkMain false envTwoHosts pingRunAllOk = Except.ok r ∧
      r.results = some rs ∧ rs.length = (hostsOf envTwoHosts).length := by
  obtain ⟨r, rs, hmain, hres, _, hlen, _⟩ :=
    C3_one_result_per_host_in_order false envTwoHosts pingRunAllOk 4 5 rfl rfl (by decide)
  exact ⟨r, rs, hmain, hres, hlen⟩

/-! ## Database resolution lemmas and claims C6, C7 -/

theorem gpDb_str_resolve (env : String → Option String) (name s : String) :
    get_parameter_db env name (PyVal.str s) PyType.str
      = Except.ok (PyVal.str ((env ("PARAM_" ++ pyUpper name)).getD s)) := by
  cases h : env ("PARAM_" ++ pyUpper name) <;> simp [get_parameter_db, h]

theorem gpDb_int_resolve (env : String → Option String) (name : String) (n : Int) :
    ∃ m : Int, get_parameter_db env name (PyVal.int n) PyType.int
      = Except.ok (PyVal.int m) := by
  cases h : env ("PARAM_" ++ pyUpper name) with
  | none => exact ⟨n, by simp [get_parameter_db, h]⟩
  | some s =>
      cases hi : pyIntStr s with
      | none => exact ⟨n, by simp [get_parameter_db, h, hi]⟩
      | some k => exact ⟨k, by simp [get_parameter_db, h, hi]⟩

theorem gpDb_none_str_resolve (env : String → Option String) (name : String) :
    get_parameter_db env name PyVal.none PyType.str
      = Except.ok (match env ("PARAM_" ++ pyUpper name) with
          | some s => PyVal.str s
          | Option.none => PyVal.none) := by
  cases h : env ("PARAM_" ++ pyUpper name) <;> simp [get_parameter_db, h]

theorem gpDb_none_int_resolve (env : String → Option String) (name : String) :
    ∃ v, get_parameter_db env name PyVal.none PyType.int = Except.ok v := by
  cases h : env ("PARAM_" ++ pyUpper name) with
  | none => exact ⟨PyVal.none, by simp [get_parameter_db, h]⟩
  | some s =>
      cases hi : pyIntStr s with
      | none => exact ⟨PyVal.none, by simp [get_parameter_db, h, hi]⟩
      | some k => exact ⟨PyVal.int k, by simp [get_parameter_db, h, hi]⟩

theorem resolveDbParams_ok (env : String → Option String) :
    ∃ p, resolveDbParams env = Except.ok p ∧
      p.database = (match env "PARAM_DATABASE" with
        | some s => PyVal.str s
        | Option.none => PyVal.none) := by
  have e1 : ("PARAM_" ++ pyUpper "db_type") = "PARAM_DB_TYPE" := rfl
  have e4 : ("PARAM_" ++ pyUpper "database") = "PARAM_DATABASE" := rfl
  have h1 := gpDb_str_resolve env "db_type" "mysql"
  rw [e1] at h1
  have h2 := gpDb_str_resolve env "host" "localhost"
  have h4 := gpDb_none_str_resolve env "database"
  rw [e4] at h4
  have h5 := gpDb_none_str_resolve env "username"
  have h6 := gpDb_none_str_resolve env "password"
  obtain ⟨tv, h7⟩ := gpDb_int_resolve env "timeout" 30
  have hport : ∃ v, get_parameter_db env "port"
      (if pyLower ((env "PARAM_DB_TYPE").getD "mysql") = "mysql" then PyVal.int 3306
       else if pyLower ((env "PARAM_DB_TYPE").getD "mysql") = "postgresql" then PyVal.int 5432
       else PyVal.none) PyType.int = Except.ok v := by
    split
    · obtain ⟨m, hm⟩ := gpDb_int_resolve env "port" 3306
      exact ⟨PyVal.int m, hm⟩
    · split
      · obtain ⟨m, hm⟩ := gpDb_int_resolve env "port" 5432
        exact ⟨PyVal.int m, hm⟩
      · exact gpDb_none_int_resolve env "port"
  obtain ⟨pv, hpv⟩ := hport
  unfold resolveDbParams
  rw [h1]
  dsimp only
  rw [h2, hpv, h4, h5, h6, h7]
  exact ⟨_, rfl, rfl⟩

theorem runTests_all (battery : String → TestOutcome) :
    ∀ ns : List String, (runTests battery ns).2
      = (runTests battery ns).1.all (fun r => r.success) := by
  intro ns
  induction ns with
  | nil => rfl
  | cons n ns ih =>
      simp only [runTests, List.all_cons]
      rw [ih]

/-- C6: If the database connection cannot be established, no checks run:
exactly one synthetic Probe Result named "connection" with success=false
is emitted, the run still proceeds to aggregation (the summary is
computed over that single entry) and the process exits 1; and for every
connection outcome the process exits 0 iff every emitted result
succeeded. -/
theorem C6_connection_failure_and_exit (env : String → Option String)
    (battery : String → TestOutcome) (d : String)
    (hd : env "PARAM_DATABASE" = some d) (hne : d ≠ "") :
    (∀ e, ∃ r, dbMain env (Except.error e) battery = Except.ok r ∧
       r.results = some [connectionFailureEntry e] ∧
       r.exitCode = 1 ∧
       r.summary = some (dbRunSummary [connectionFailureEntry e])) ∧
    (∀ co : Except String Unit, ∃ r, dbMain env co battery = Except.ok r ∧
       ∀ rs, r.results = some rs →
         (r.exitCode = 0 ↔ ∀ t ∈ rs, t.success = true)) := by
  obtain ⟨p, hp, hdb⟩ := resolveDbParams_ok env
  rw [hd] at hdb
  have hfal : pyFalsy p.database = false := by
    rw [hdb]
    simp [pyFalsy, hne]
  have hrunE : ∀ e, dbMain env (Except.error e) battery = Except.ok
      { exitCode := 1, results := some [connectionFailureEntry e],
        overall_success := some false,
        summary := some (dbRunSummary [connectionFailureEntry e]) } := by
    intro e
    unfold dbMain
    rw [hp]
    simp [hfal]
  have hrunO : dbMain env (Except.ok ()) battery = Except.ok
      { exitCode := if (runTests battery dbTestNames).2 then 0 else 1,
        results := some (runTests battery dbTestNames).1,
        overall_success := some (runTests battery dbTestNames).2,
        summary := some (dbRunSummary (runTests battery dbTestNames).1) } := by
    unfold dbMain
    rw [hp]
    simp [hfal]
  constructor
  · intro e
    exact ⟨_, hrunE e, rfl, rfl, rfl⟩
  · intro co
    cases co with
    | error e =>
        refine ⟨_, hrunE e, ?_⟩
        intro rs hrs
        have hrs' : rs = [connectionFailureEntry e] := by simpa using hrs.symm
        subst hrs'
        constructor
        · intro h1
          exact absurd h1 (by simp)
        · intro hall
          have := hall (connectionFailureEntry e) (by simp)
          simp [connectionFailureEntry] at this
    | ok u =>
        cases u
        refine ⟨_, hrunO, ?_⟩
        intro rs hrs
        have hrs' : rs = (runTests battery dbTestNames).1 := by simpa using hrs.symm
        subst hrs'
        have hall := runTests_all battery dbTestNames
        cases hb : (runTests battery dbTestNames).2 with
        | false =>
            rw [hb] at hall
            constructor
            · intro h1
              exact absurd h1 (by simp)
            · intro hmem
              have : (runTests battery dbTestNames).1.all (fun r => r.success) = true := by
                rw [List.all_eq_true]
                exact fun t ht => hmem t ht
              rw [← hall] at this
              exact absurd this (by simp)
        | true =>
            rw [hb] at hall
            constructor
            · intro _ t ht
              have h2 : (runTests battery dbTestNames).1.all (fun r => r.success) = true :=
                hall.symm
              rw [List.all_eq_true] at h2
              exact h2 t ht
            · intro _
              rfl

/-- An environment naming a database and nothing else. -/
def envDb : String → Option String :=
  fun k => if k = "PARAM_DATABASE" then some "mydb" else Option.none

theorem C6_witness :
    ∃ r, dbMain envDb (Except.error "boom") allOkBattery = Except.ok r ∧
      r.results = some [connectionFailureEntry "boom"] ∧
      r.exitCode = 1 ∧
      r.summary = some (dbRunSummary [connectionFailureEntry "boom"]) :=
  (C6_connection_failure_and_exit envDb allOkBattery "mydb" rfl (by decide)).1 "boom"

/-- The declared default matches the declared type (`None` is a
legitimate default for every type). -/
def wellTypedDefault : PyVal → PyType → Bool
  | PyVal.none, _ => true
  | PyVal.str _, PyType.str => true
  | PyVal.int _, PyType.int => true
  | PyVal.bool _, PyType.bool => true
  | PyVal.list _, PyType.list => true
  | _, _ => false

/-- C7: For every parameter resolution, in both scripts: if the raw
value is absent, the declared default is returned unchanged (for every
supported type, including `None` as a legitimate default); and if a raw
value is present but fails int coercion, the declared default is
returned and no error is raised (the resolution returns `Except.ok`). -/
theorem C7_lenient_parameter_resolution (env : String → Option String) (name : String)
    (default : PyVal) (ty : PyType) :
    (env ("PARAM_" ++ pyUpper name) = Option.none → wellTypedDefault default ty = true →
       get_parameter_net env name default ty = Except.ok default ∧
       get_parameter_db env name default ty = Except.ok default) ∧
    (∀ s, env ("PARAM_" ++ pyUpper name) = some s → pyIntStr s = Option.none →
       get_parameter_net env name default PyType.int = Except.ok default ∧
       get_parameter_db env name default PyType.int = Except.ok default) := by
  constructor
  · intro h hw
    cases default with
    | none =>
        cases ty <;>
          exact ⟨by simp [get_parameter_net, h], by simp [get_parameter_db, h]⟩
    | str s =>
        cases ty with
        | str => exact ⟨by simp [get_parameter_net, h], by simp [get_parameter_db, h]⟩
        | int => exact absurd hw (by simp [wellTypedDefault])
        | bool => exact absurd hw (by simp [wellTypedDefault])
        | list => exact absurd hw (by simp [wellTypedDefault])
    | int n =>
        cases ty with
        | int => exact ⟨by simp [get_parameter_net, h], by simp [get_parameter_db, h]⟩
        | str => exact absurd hw (by simp [wellTypedDefault])
        | bool => exact absurd hw (by simp [wellTypedDefault])
        | list => exact absurd hw (by simp [wellTypedDefault])
    | bool b =>
        cases ty with
        | bool =>
            cases b <;>
              exact ⟨by simp [get_parameter_net, h, pyStr]; decide,
                by simp [get_parameter_db, h, pyStr]; decide⟩
        | str => exact absurd hw (by simp [wellTypedDefault])
        | int => exact absurd hw (by simp [wellTypedDefault])
        | list => exact absurd hw (by simp [wellTypedDefault])
    | list xs =>
        cases ty with
        | list => exact ⟨by simp [get_parameter_net, h], by simp [get_parameter_db, h]⟩
        | str => exact absurd hw (by simp [wellTypedDefault])
        | int => exact absurd hw (by simp [wellTypedDefault])
        | bool => exact absurd hw (by simp [wellTypedDefault])
  · intro s hs hint
    exact ⟨by simp [get_parameter_net, hs, hint], by simp [get_parameter_db, hs, hint]⟩

/-- An environment with an unparseable `count` and nothing else. -/
def envBadCount : String → Option String :=
  fun k => if k = "PARAM_COUNT" then some "abc" else Option.none

theorem C7_witness :
    (get_parameter_net (fun _ => Option.none) "count" (PyVal.int 4) PyType.int
        = Except.ok (PyVal.int 4) ∧
     get_parameter_db (fun _ => Option.none) "count" (PyVal.int 4) PyType.int
        = Except.ok (PyVal.int 4)) ∧
    (get_parameter_net envBadCount "count" (PyVal.int 4) PyType.int
        = Except.ok (PyVal.int 4) ∧
     get_parameter_db envBadCount "count" (PyVal.int 4) PyType.int
        = Except.ok (PyVal.int 4)) :=
  ⟨(C7_lenient_parameter_resolution (fun _ => Option.none) "count"
      (PyVal.int 4) PyType.int).1 rfl (by decide),
   (C7_lenient_parameter_resolution envBadCount "count"
      (PyVal.int 4) PyType.int).2 "abc" rfl (by decide)⟩
